import Mathlib

/-!
# VipeMap server: area rooms of the Socket.IO hub

A shallow embedding of `VipeMap/server/src/index.js` (the Socket.IO handlers
`joinArea`, `createVibe`, `updateVibe`, `disconnect` and the helper
`calculateAreaId`) and of the schema in `VipeMap/server/src/models/vibe.js`.

Modelling conventions:

* a JavaScript number is a finite exact rational, `NaN`, `Infinity` or
  `-Infinity`; arithmetic on finite values is exact;
* an absent property is `none` (reading it gives `undefined`);
* the room table of Socket.IO is a finite set of (socket, room) pairs and
  `socket.join` inserts a pair;
* a handler is the ordered list of the effects it performs; the asynchronous
  answers of MongoDB (`Vibe.find`, `vibe.save`, `Vibe.findByIdAndUpdate`) are
  arguments of the handler.
-/

namespace VipeMap

/-! ## JavaScript numbers -/

/-- A JavaScript number: a finite value (kept as an exact rational), `NaN`,
`Infinity` or `-Infinity`. -/
inductive JSNum where
  | fin (q : ℚ)
  | nan
  | posInf
  | negInf
deriving DecidableEq

/-- The conversion `ToNumber` applied to a property that holds a number or is
absent: `undefined` converts to `NaN`. -/
def toNumber : Option JSNum → JSNum
  | some v => v
  | none => .nan

/-- The product `v * 100`. -/
def JSNum.times100 : JSNum → JSNum
  | .fin q => .fin (q * 100)
  | .nan => .nan
  | .posInf => .posInf
  | .negInf => .negInf

/-- The quotient `v / 100`. -/
def JSNum.over100 : JSNum → JSNum
  | .fin q => .fin (q / 100)
  | .nan => .nan
  | .posInf => .posInf
  | .negInf => .negInf

/-- The function `Math.round`: the nearest integer, a tie going towards
`+Infinity`, which on exact values is `floor (x + 1/2)`; `NaN` and the
infinities are returned unchanged. -/
def Math.round : JSNum → JSNum
  | .fin q => .fin ((⌊q + 1 / 2⌋ : ℤ) : ℚ)
  | .nan => .nan
  | .posInf => .posInf
  | .negInf => .negInf

/-- The fractional part of a decimal rendering with at most two places, from
the number `r < 100` of hundredths: nothing for `0`, one digit when the
second one is `0`, and two digits otherwise. -/
def fracChars (r : Nat) : List Char :=
  if r = 0 then []
  else if r % 10 = 0 then ['.', Nat.digitChar (r / 10)]
  else ['.', Nat.digitChar (r / 10), Nat.digitChar (r % 10)]

/-- The decimal rendering of `h / 100` for an integer `h`: a minus sign when
the value is negative, the integer part, and the fractional part without
trailing zeros (`1341` gives `13.41`, `1340` gives `13.4`, `-5` gives
`-0.05`, `0` gives `0`). -/
def hundredthsChars (h : ℤ) : List Char :=
  (if h < 0 then ['-'] else []) ++
    (Nat.toDigits 10 (h.natAbs / 100) ++ fracChars (h.natAbs % 100))

/-- The characters of `Number::toString`, as used by a template literal.
The finite case is the rendering of a value `v` with `100 * v` an integer and
`|v| < 10^21` (no exponent form): every finite value that `calculateAreaId`
renders is a quotient `k / 100` with `k` an integer. -/
def JSNum.toChars : JSNum → List Char
  | .fin q => hundredthsChars ⌊q * 100⌋
  | .nan => ['N', 'a', 'N']
  | .posInf => ['I', 'n', 'f', 'i', 'n', 'i', 't', 'y']
  | .negInf => ['-', 'I', 'n', 'f', 'i', 'n', 'i', 't', 'y']

/-- The string a template literal produces for a number. -/
def JSNum.toString (v : JSNum) : String := String.mk v.toChars

/-- A character is a decimal digit. -/
def IsDigit (c : Char) : Prop := 48 ≤ c.toNat ∧ c.toNat ≤ 57

/-- The value of a list of decimal digits, read from the left. -/
def decodeNat (cs : List Char) : Nat :=
  cs.foldl (fun a c => a * 10 + (c.toNat - 48)) 0

/-! ## `calculateAreaId` (index.js, lines 171-176) -/

/-- The argument of `calculateAreaId`, seen through the two properties the
function reads. A property is `none` when the object does not have it. -/
structure Coordinates where
  latitude : Option JSNum
  longitude : Option JSNum
deriving DecidableEq

/-- The local constant `lat = Math.round(coordinates.latitude * 100) / 100`. -/
def areaLat (coordinates : Coordinates) : JSNum :=
  (Math.round (toNumber coordinates.latitude).times100).over100

/-- The local constant `lng = Math.round(coordinates.longitude * 100) / 100`. -/
def areaLng (coordinates : Coordinates) : JSNum :=
  (Math.round (toNumber coordinates.longitude).times100).over100

/-- The helper `calculateAreaId` on an object: the template literal of `lat`,
a comma and `lng`. The function has no other statement. On an argument that
is `undefined` or `null` the first property access throws a `TypeError`; that
case is part of the handlers below. -/
def calculateAreaId (coordinates : Coordinates) : String :=
  (areaLat coordinates).toString ++ "," ++ (areaLng coordinates).toString

/-- The coordinates object with the two finite values `lat` and `lng`. -/
def Coordinates.ofRat (lat lng : ℚ) : Coordinates :=
  { latitude := some (.fin lat), longitude := some (.fin lng) }

/-- The coordinates of the data model of the specification: both values
finite, the latitude in `[-90, 90]` and the longitude in `[-180, 180]`. -/
def Coordinates.Valid (c : Coordinates) : Prop :=
  match c.latitude, c.longitude with
  | some (.fin x), some (.fin y) => -90 ≤ x ∧ x ≤ 90 ∧ -180 ≤ y ∧ y ≤ 180
  | _, _ => False

/-- The key built from the two rounded numbers of hundredths. -/
def keyOfHundredths (a b : ℤ) : String :=
  String.mk (hundredthsChars a) ++ "," ++ String.mk (hundredthsChars b)

/-! ## The schema of a vibe (models/vibe.js) -/

/-- The stored `location` of a vibe: the schema keeps the two paths `type`
and `coordinates` (a GeoJSON point, `coordinates = [lng, lat]`) and no
other. -/
structure Point where
  type : String
  coordinates : List JSNum
deriving DecidableEq

/-- The `location` object of a `createVibe` payload, seen through the
properties the server reads: `type` and `coordinates` (read by the schema)
and `latitude`, `longitude` (read by `calculateAreaId`). -/
structure Location where
  type : Option String
  coordinates : Option (List JSNum)
  latitude : Option JSNum
  longitude : Option JSNum
deriving DecidableEq

/-- The payload of `createVibe`, seen through the paths the schema requires.
The optional paths (`content`, `arData`, `likes`, `comments`, `createdAt`)
are never read by the handlers and are left out. -/
structure VibeData where
  type : Option String
  location : Option Location
  createdBy : Option String
deriving DecidableEq

/-- A stored vibe document, reduced to the required paths. -/
structure Vibe where
  type : String
  location : Point
  createdBy : String
deriving DecidableEq

/-- The validation of `vibeSchema`: the paths `type`, `location.type`,
`location.coordinates` and `createdBy` are declared `required: true` and must
be present, `type` is one of `text`, `photo`, `ar` and `location.type` is
`Point`. The result is the document, or `none` when validation fails. -/
def vibeSchema.validate (vibeData : VibeData) : Option Vibe :=
  match vibeData.type, vibeData.location, vibeData.createdBy with
  | some t, some loc, some u =>
    match loc.type, loc.coordinates with
    | some lt, some cs =>
      if t ∈ ["text", "photo", "ar"] ∧ lt = "Point" then
        some { type := t, location := { type := lt, coordinates := cs }, createdBy := u }
      else none
    | _, _ => none
  | _, _, _ => none

/-- The statements `new Vibe(vibeData)` and `await vibe.save()`: validation,
then the write, whose outcome `db` is the answer of MongoDB (`none` for a
successful write, `some message` for a failure). The message of a validation
error is kept to its fixed first words. -/
def save (db : Option String) (vibeData : VibeData) : Except String Vibe :=
  match vibeSchema.validate vibeData with
  | none => .error "Vibe validation failed"
  | some vibe =>
    match db with
    | some message => .error message
    | none => .ok vibe

/-- The object `vibeData.location` as `calculateAreaId` reads it. -/
def Location.asCoordinates (loc : Location) : Coordinates :=
  { latitude := loc.latitude, longitude := loc.longitude }

/-- The object `updatedVibe.location` as `calculateAreaId` reads it: a stored
point has neither a `latitude` nor a `longitude` property. -/
def Point.asCoordinates (_p : Point) : Coordinates :=
  { latitude := none, longitude := none }

/-- The coordinate (latitude, longitude) of a stored point
`coordinates = [lng, lat]`. -/
def Point.coordinate (p : Point) : Option Coordinates :=
  match p.coordinates with
  | [lng, lat] => some { latitude := some lat, longitude := some lng }
  | _ => none

/-! ## The hub: rooms, effects and handlers (index.js, lines 105-169) -/

/-- The value sent with an event. -/
inductive Payload where
  | vibes (vs : List Vibe)
  | vibe (v : Vibe)
  | error (message : String)
deriving DecidableEq

/-- One effect of a handler, in the order of execution. -/
inductive Action where
  /-- A call of `calculateAreaId`, with its argument (`none` for an argument
  that is `undefined` or `null`, on which the call throws). -/
  | areaId (coordinates : Option Coordinates)
  /-- The call `socket.join(room)`. -/
  | join (conn : Nat) (room : String)
  /-- The removal of the socket from all its rooms. -/
  | leaveAll (conn : Nat)
  /-- The query `Vibe.find` with `$near` at `[longitude, latitude]`. -/
  | find (longitude latitude : Option JSNum)
  /-- The statements `new Vibe(vibeData)` and `vibe.save()`. -/
  | save (vibeData : VibeData)
  /-- The call `Vibe.findByIdAndUpdate`. -/
  | update
  /-- The call `socket.emit(event, payload)`: to this socket only. -/
  | emitSocket (conn : Nat) (event : String) (payload : Payload)
  /-- The call `io.to(room).emit(event, payload)`. -/
  | emitRoom (room : String) (event : String) (payload : Payload)
deriving DecidableEq

/-- The state of the hub: the room table, as the set of pairs (socket, room)
such that the socket is a member of the room. -/
structure Hub where
  rooms : Finset (Nat × String)
deriving DecidableEq

/-- The hub before any connection. -/
def Hub.init : Hub := { rooms := ∅ }

/-- The members of a room. -/
def Hub.subscribersOf (s : Hub) (room : String) : Finset Nat :=
  (s.rooms.filter (fun p => p.2 = room)).image Prod.fst

/-- The effect of one action on the room table: `join` inserts a pair,
`leaveAll` removes the pairs of a socket, the other actions leave the table
unchanged. -/
def Hub.apply (s : Hub) : Action → Hub
  | .join conn room => { rooms := insert (conn, room) s.rooms }
  | .leaveAll conn => { rooms := s.rooms.filter (fun p => p.1 ≠ conn) }
  | _ => s

/-- The effect of a list of actions, from left to right. -/
def Hub.run (s : Hub) (actions : List Action) : Hub :=
  actions.foldl Hub.apply s

/-- The sockets an action sends a message to, in a given state of the room
table. -/
def Hub.recipients (s : Hub) : Action → Finset Nat
  | .emitSocket conn _ _ => {conn}
  | .emitRoom room _ _ => s.subscribersOf room
  | _ => ∅

/-- The handler of `joinArea` (lines 109-132). The payload is `none` when it
is `undefined` or `null`, in which case `calculateAreaId` throws on its first
property access and the `catch` block runs. `found` is the answer of
`Vibe.find`. -/
def joinArea (conn : Nat) (payload : Option Coordinates)
    (found : Except String (List Vibe)) : List Action :=
  match payload with
  | none => [.areaId none, .emitSocket conn "error" (.error "Error joining area")]
  | some coordinates =>
    let areaId := calculateAreaId coordinates
    [.areaId (some coordinates), .join conn areaId,
      .find coordinates.longitude coordinates.latitude] ++
    match found with
    | .ok vibes => [.emitSocket conn "vibes" (.vibes vibes)]
    | .error _ => [.emitSocket conn "error" (.error "Error joining area")]

/-- The handler of `createVibe` (lines 135-146). `db` is the answer of
MongoDB to the write. -/
def createVibe (conn : Nat) (vibeData : VibeData) (db : Option String) : List Action :=
  match save db vibeData with
  | .error message => [.save vibeData, .emitSocket conn "error" (.error message)]
  | .ok vibe =>
    match vibeData.location with
    | none =>
      [.save vibeData, .areaId none,
        .emitSocket conn "error" (.error "Cannot read properties of undefined")]
    | some loc =>
      let areaId := calculateAreaId loc.asCoordinates
      [.save vibeData, .areaId (some loc.asCoordinates),
        .emitRoom areaId "newVibe" (.vibe vibe)]

/-- The handler of `updateVibe` (lines 149-163). `res` is the answer of
`Vibe.findByIdAndUpdate`: a failure, no document, or the updated document. -/
def updateVibe (conn : Nat) (res : Except String (Option Vibe)) : List Action :=
  match res with
  | .error message => [.update, .emitSocket conn "error" (.error message)]
  | .ok none => [.update]
  | .ok (some updatedVibe) =>
    let areaId := calculateAreaId updatedVibe.location.asCoordinates
    [.update, .areaId (some updatedVibe.location.asCoordinates),
      .emitRoom areaId "vibeUpdated" (.vibe updatedVibe)]

/-- The handler of `disconnect` (lines 166-168): it writes a log line and has
no other statement. -/
def disconnectHandler (_conn : Nat) : List Action := []

/-- The disconnection of a socket. The room table belongs to Socket.IO, which
on a disconnection removes the socket from all its rooms and then emits
`disconnect`, the event that runs the handler. -/
def disconnect (conn : Nat) : List Action :=
  .leaveAll conn :: disconnectHandler conn

/-- An event the hub handles, with the answers of MongoDB it meets. -/
inductive Event where
  | joinArea (conn : Nat) (payload : Option Coordinates) (found : Except String (List Vibe))
  | createVibe (conn : Nat) (vibeData : VibeData) (db : Option String)
  | updateVibe (conn : Nat) (res : Except String (Option Vibe))
  | disconnect (conn : Nat)

/-- The effects of an event. -/
def Event.actions : Event → List Action
  | .joinArea conn payload found => VipeMap.joinArea conn payload found
  | .createVibe conn vibeData db => VipeMap.createVibe conn vibeData db
  | .updateVibe conn res => VipeMap.updateVibe conn res
  | .disconnect conn => VipeMap.disconnect conn

/-- A `createVibe` payload misses a path the schema requires: `type`,
`location.type`, `location.coordinates` or `createdBy`. -/
def VibeData.MissesRequired (vibeData : VibeData) : Prop :=
  vibeData.type = none ∨ vibeData.createdBy = none ∨
    match vibeData.location with
    | none => True
    | some loc => loc.type = none ∨ loc.coordinates = none

theorem digitChar_toNat (d : Nat) (h : d < 10) : (Nat.digitChar d).toNat = 48 + d := by
  interval_cases d <;> rfl

theorem isDigit_digitChar (d : Nat) (h : d < 10) : IsDigit (Nat.digitChar d) := by
  unfold IsDigit
  rw [digitChar_toNat d h]
  omega

theorem toDigitsCore_append (fuel : Nat) :
    ∀ (n : Nat) (ds : List Char),
      Nat.toDigitsCore 10 fuel n ds = Nat.toDigitsCore 10 fuel n [] ++ ds := by
  induction fuel with
  | zero => intro n ds; simp [Nat.toDigitsCore]
  | succ fuel ih =>
    intro n ds
    simp only [Nat.toDigitsCore]
    split
    · simp
    · rw [ih (n / 10) (Nat.digitChar (n % 10) :: ds), ih (n / 10) [Nat.digitChar (n % 10)]]
      simp

theorem toDigitsCore_succ (fuel n : Nat) :
    Nat.toDigitsCore 10 (fuel + 1) n [] =
      (if n / 10 = 0 then [] else Nat.toDigitsCore 10 fuel (n / 10) []) ++
        [Nat.digitChar (n % 10)] := by
  simp only [Nat.toDigitsCore]
  split
  · simp
  · rw [toDigitsCore_append]

theorem decodeNat_toDigitsCore (fuel : Nat) :
    ∀ n : Nat, n < fuel → decodeNat (Nat.toDigitsCore 10 fuel n []) = n := by
  induction fuel with
  | zero => intro n h; omega
  | succ fuel ih =>
    intro n h
    rw [toDigitsCore_succ]
    have hd : (Nat.digitChar (n % 10)).toNat - 48 = n % 10 := by
      rw [digitChar_toNat _ (Nat.mod_lt _ (by norm_num))]; omega
    split
    · rename_i h0
      simp [decodeNat, hd]
      omega
    · rename_i h0
      have := ih (n / 10) (by omega)
      unfold decodeNat at this ⊢
      rw [List.foldl_append, this]
      simp [hd]
      omega

theorem isDigit_toDigitsCore (fuel : Nat) :
    ∀ n : Nat, ∀ c ∈ Nat.toDigitsCore 10 fuel n [], IsDigit c := by
  induction fuel with
  | zero => intro n c hc; simp [Nat.toDigitsCore] at hc
  | succ fuel ih =>
    intro n c hc
    rw [toDigitsCore_succ] at hc
    rcases List.mem_append.1 hc with h | h
    · split at h
      · simp at h
      · exact ih _ c h
    · rw [List.mem_singleton] at h
      subst h
      exact isDigit_digitChar _ (Nat.mod_lt _ (by norm_num))

theorem toDigits_injective (a b : Nat) (h : Nat.toDigits 10 a = Nat.toDigits 10 b) : a = b := by
  have ha := decodeNat_toDigitsCore (a + 1) a (by omega)
  have hb := decodeNat_toDigitsCore (b + 1) b (by omega)
  unfold Nat.toDigits at h
  rw [h] at ha
  omega

theorem toDigits_ne_nil (a : Nat) : Nat.toDigits 10 a ≠ [] := by
  unfold Nat.toDigits
  rw [toDigitsCore_succ]
  simp

theorem isDigit_toDigits (a : Nat) : ∀ c ∈ Nat.toDigits 10 a, IsDigit c :=
  isDigit_toDigitsCore (a + 1) a

/-- Two lists split in the same way at the first character outside `p`. -/
theorem append_split_unique (p : Char → Prop) :
    ∀ (d₁ d₂ f₁ f₂ : List Char),
      (∀ c ∈ d₁, p c) → (∀ c ∈ d₂, p c) →
      (∀ c, f₁.head? = some c → ¬ p c) → (∀ c, f₂.head? = some c → ¬ p c) →
      d₁ ++ f₁ = d₂ ++ f₂ → d₁ = d₂ ∧ f₁ = f₂ := by
  intro d₁
  induction d₁ with
  | nil =>
    intro d₂ f₁ f₂ _ h₂ hf₁ _ h
    cases d₂ with
    | nil => exact ⟨rfl, by simpa using h⟩
    | cons e d₂ =>
      exfalso
      simp only [List.nil_append, List.cons_append] at h
      exact hf₁ e (by rw [h]; rfl) (h₂ e (List.mem_cons_self _ _))
  | cons e d₁ ih =>
    intro d₂ f₁ f₂ h₁ h₂ hf₁ hf₂ h
    cases d₂ with
    | nil =>
      exfalso
      simp only [List.nil_append, List.cons_append] at h
      exact hf₂ e (by rw [← h]; rfl) (h₁ e (List.mem_cons_self _ _))
    | cons e' d₂ =>
      simp only [List.cons_append, List.cons.injEq] at h
      obtain ⟨he, ht⟩ := h
      have := ih d₂ f₁ f₂ (fun c hc => h₁ c (List.mem_cons_of_mem _ hc))
        (fun c hc => h₂ c (List.mem_cons_of_mem _ hc)) hf₁ hf₂ ht
      exact ⟨by rw [he, this.1], this.2⟩

theorem fracChars_head (r : Nat) : ∀ c, (fracChars r).head? = some c → c = '.' := by
  intro c hc
  unfold fracChars at hc
  split at hc
  · simp at hc
  · split at hc <;> simpa using hc.symm

theorem fracChars_injective (r s : Nat) (hr : r < 100) (hs : s < 100)
    (h : fracChars r = fracChars s) : r = s := by
  have e1 := digitChar_toNat (r / 10) (by omega)
  have e2 := digitChar_toNat (r % 10) (by omega)
  have e3 := digitChar_toNat (s / 10) (by omega)
  have e4 := digitChar_toNat (s % 10) (by omega)
  unfold fracChars at h
  split_ifs at h <;> simp at h <;> try omega
  · rw [h] at e1; omega
  · rw [h.1] at e1; rw [h.2] at e2; omega

theorem fracChars_mem (r : Nat) (hr : r < 100) :
    ∀ c ∈ fracChars r, c = '.' ∨ IsDigit c := by
  intro c hc
  unfold fracChars at hc
  split_ifs at hc
  · simp at hc
  · simp at hc
    rcases hc with h | h
    · exact Or.inl h
    · exact Or.inr (h ▸ isDigit_digitChar _ (by omega))
  · simp at hc
    rcases hc with h | h | h
    · exact Or.inl h
    · exact Or.inr (h ▸ isDigit_digitChar _ (by omega))
    · exact Or.inr (h ▸ isDigit_digitChar _ (by omega))


theorem not_isDigit_minus : ¬ IsDigit '-' := by unfold IsDigit; decide

theorem not_isDigit_dot : ¬ IsDigit '.' := by unfold IsDigit; decide

theorem not_isDigit_comma : ¬ IsDigit ',' := by unfold IsDigit; decide

theorem hundredthsChars_injective (a b : ℤ) (h : hundredthsChars a = hundredthsChars b) :
    a = b := by
  have key : ∀ x y : ℤ, Nat.toDigits 10 (x.natAbs / 100) ++ fracChars (x.natAbs % 100) =
      Nat.toDigits 10 (y.natAbs / 100) ++ fracChars (y.natAbs % 100) → x.natAbs = y.natAbs := by
    intro x y hxy
    have hsplit := append_split_unique IsDigit _ _ _ _ (isDigit_toDigits _) (isDigit_toDigits _)
      (fun c hc => by rw [fracChars_head _ c hc]; exact not_isDigit_dot)
      (fun c hc => by rw [fracChars_head _ c hc]; exact not_isDigit_dot) hxy
    have h1 := toDigits_injective _ _ hsplit.1
    have h2 := fracChars_injective _ _ (Nat.mod_lt _ (by norm_num)) (Nat.mod_lt _ (by norm_num))
      hsplit.2
    omega
  have headDigit : ∀ x : ℤ, ∀ t : List Char,
      Nat.toDigits 10 (x.natAbs / 100) ++ fracChars (x.natAbs % 100) ≠ '-' :: t := by
    intro x t ht
    cases hd : Nat.toDigits 10 (x.natAbs / 100) with
    | nil => exact toDigits_ne_nil _ hd
    | cons c cs =>
      rw [hd] at ht
      simp only [List.cons_append, List.cons.injEq] at ht
      have := isDigit_toDigits (x.natAbs / 100) c (by rw [hd]; exact List.mem_cons_self _ _)
      rw [ht.1] at this
      exact not_isDigit_minus this
  unfold hundredthsChars at h
  by_cases ha : a < 0 <;> by_cases hb : b < 0
  · simp only [ha, hb, if_true, List.cons_append, List.nil_append, List.cons.injEq,
      true_and] at h
    have := key a b h
    omega
  · simp only [ha, hb, if_true, if_false, List.cons_append, List.nil_append] at h
    exact absurd h.symm (headDigit b _)
  · simp only [ha, hb, if_true, if_false, List.cons_append, List.nil_append] at h
    exact absurd h (headDigit a _)
  · simp only [ha, hb, if_false, List.nil_append] at h
    have := key a b h
    omega

theorem hundredthsChars_no_comma (a : ℤ) : ∀ c ∈ hundredthsChars a, c ≠ ',' := by
  intro c hc hcomma
  subst hcomma
  unfold hundredthsChars at hc
  rcases List.mem_append.1 hc with h | h
  · split at h
    · simp at h
    · simp at h
  · rcases List.mem_append.1 h with h | h
    · exact not_isDigit_comma (isDigit_toDigits _ _ h)
    · rcases fracChars_mem _ (Nat.mod_lt _ (by norm_num)) _ h with h | h
      · simp at h
      · exact not_isDigit_comma h

theorem keyOfHundredths_injective (a b c d : ℤ)
    (h : keyOfHundredths a b = keyOfHundredths c d) : a = c ∧ b = d := by
  unfold keyOfHundredths at h
  have hdata := congrArg String.data h
  simp only [String.data_append] at hdata
  rw [List.append_assoc, List.append_assoc] at hdata
  have hsplit := append_split_unique (fun c => c ≠ ',') _ _ _ _
    (hundredthsChars_no_comma a) (hundredthsChars_no_comma c)
    (fun x hx => by simp at hx; simp [← hx]) (fun x hx => by simp at hx; simp [← hx]) hdata
  refine ⟨hundredthsChars_injective _ _ hsplit.1, hundredthsChars_injective _ _ ?_⟩
  simpa using hsplit.2

theorem floor_hundredths (k : ℤ) : ⌊((k : ℚ) / 100) * 100⌋ = k := by
  have : ((k : ℚ) / 100) * 100 = (k : ℚ) := by ring
  rw [this, Int.floor_intCast]

theorem calculateAreaId_ofRat (x y : ℚ) :
    calculateAreaId (Coordinates.ofRat x y) =
      keyOfHundredths ⌊x * 100 + 1 / 2⌋ ⌊y * 100 + 1 / 2⌋ := by
  simp only [calculateAreaId, areaLat, areaLng, Coordinates.ofRat, toNumber, JSNum.times100,
    Math.round, JSNum.over100, JSNum.toString, JSNum.toChars, floor_hundredths, keyOfHundredths]


/-! ## The cell key -/

theorem round_times100_fin (x : ℚ) :
    Math.round (toNumber (some (JSNum.fin x))).times100 = .fin ((⌊x * 100 + 1 / 2⌋ : ℤ) : ℚ) := rfl

/-- Claim C3, counterexample: the keys of (52.5200, 13.4050) and of
(52.5199, 13.4049) are different. -/
theorem example1_differ :
    calculateAreaId (Coordinates.ofRat (5252 / 100) (13405 / 1000)) ≠
      calculateAreaId (Coordinates.ofRat (525199 / 10000) (134049 / 10000)) := by
  rw [calculateAreaId_ofRat, calculateAreaId_ofRat]
  have h1 : ⌊(5252 / 100 : ℚ) * 100 + 1 / 2⌋ = 5252 := by norm_num [Int.floor_eq_iff]
  have h2 : ⌊(13405 / 1000 : ℚ) * 100 + 1 / 2⌋ = 1341 := by norm_num [Int.floor_eq_iff]
  have h3 : ⌊(525199 / 10000 : ℚ) * 100 + 1 / 2⌋ = 5252 := by norm_num [Int.floor_eq_iff]
  have h4 : ⌊(134049 / 10000 : ℚ) * 100 + 1 / 2⌋ = 1340 := by norm_num [Int.floor_eq_iff]
  rw [h1, h2, h3, h4]
  decide

/-- Claim C3, amended: `calculateAreaId` returns `52.52,13.41` at
(52.5200, 13.4050) and `52.52,13.4` at (52.5199, 13.4049): the latitude parts
agree and the longitude parts do not, since `100 * 13.4050 = 1340.5` is a tie
that rounds up to `1341` while `100 * 13.4049 = 1340.49` rounds to `1340`. -/
theorem example1_keys :
    calculateAreaId (Coordinates.ofRat (5252 / 100) (13405 / 1000)) = "52.52,13.41" ∧
    calculateAreaId (Coordinates.ofRat (525199 / 10000) (134049 / 10000)) = "52.52,13.4" ∧
    areaLat (Coordinates.ofRat (5252 / 100) (13405 / 1000)) =
      areaLat (Coordinates.ofRat (525199 / 10000) (134049 / 10000)) ∧
    areaLng (Coordinates.ofRat (5252 / 100) (13405 / 1000)) = .fin (1341 / 100) ∧
    areaLng (Coordinates.ofRat (525199 / 10000) (134049 / 10000)) = .fin (1340 / 100) := by
  have h1 : ⌊(5252 / 100 : ℚ) * 100 + 1 / 2⌋ = 5252 := by norm_num [Int.floor_eq_iff]
  have h2 : ⌊(13405 / 1000 : ℚ) * 100 + 1 / 2⌋ = 1341 := by norm_num [Int.floor_eq_iff]
  have h3 : ⌊(525199 / 10000 : ℚ) * 100 + 1 / 2⌋ = 5252 := by norm_num [Int.floor_eq_iff]
  have h4 : ⌊(134049 / 10000 : ℚ) * 100 + 1 / 2⌋ = 1340 := by norm_num [Int.floor_eq_iff]
  refine ⟨?_, ?_, ?_, ?_, ?_⟩
  · rw [calculateAreaId_ofRat, h1, h2]; decide
  · rw [calculateAreaId_ofRat, h3, h4]; decide
  · simp only [areaLat, Coordinates.ofRat, round_times100_fin, h1, h3]
  · simp only [areaLng, Coordinates.ofRat, round_times100_fin, h2, JSNum.over100]
    norm_num
  · simp only [areaLng, Coordinates.ofRat, round_times100_fin, h4, JSNum.over100]
    norm_num

/-- Claim C4: for valid coordinates, `calculateAreaId` gives the same key
exactly when the rounded values `Math.round(latitude * 100)` agree and the
rounded values `Math.round(longitude * 100)` agree. -/
theorem calculateAreaId_eq_iff (c₁ c₂ : Coordinates) (h₁ : c₁.Valid) (h₂ : c₂.Valid) :
    calculateAreaId c₁ = calculateAreaId c₂ ↔
      Math.round (toNumber c₁.latitude).times100 = Math.round (toNumber c₂.latitude).times100 ∧
      Math.round (toNumber c₁.longitude).times100 =
        Math.round (toNumber c₂.longitude).times100 := by
  obtain ⟨lat₁, lng₁⟩ := c₁
  obtain ⟨lat₂, lng₂⟩ := c₂
  unfold Coordinates.Valid at h₁ h₂
  rcases lat₁ with _ | (x₁ | _ | _ | _) <;> rcases lng₁ with _ | (y₁ | _ | _ | _) <;>
    simp only at h₁
  rcases lat₂ with _ | (x₂ | _ | _ | _) <;> rcases lng₂ with _ | (y₂ | _ | _ | _) <;>
    simp only at h₂
  have e₁ := calculateAreaId_ofRat x₁ y₁
  have e₂ := calculateAreaId_ofRat x₂ y₂
  unfold Coordinates.ofRat at e₁ e₂
  rw [e₁, e₂]
  simp only [round_times100_fin, JSNum.fin.injEq, Int.cast_inj]
  constructor
  · exact keyOfHundredths_injective _ _ _ _
  · rintro ⟨ha, hb⟩
    rw [ha, hb]

/-- Claim C4, witness: the valid coordinates (52.52, 13.405) and
(52.5201, 13.4051). -/
theorem calculateAreaId_eq_iff_witness :
    (Coordinates.ofRat (5252 / 100) (13405 / 1000)).Valid ∧
    (Coordinates.ofRat (525201 / 10000) (134051 / 10000)).Valid ∧
    (calculateAreaId (Coordinates.ofRat (5252 / 100) (13405 / 1000)) =
        calculateAreaId (Coordinates.ofRat (525201 / 10000) (134051 / 10000)) ↔
      Math.round (toNumber (Coordinates.ofRat (5252 / 100) (13405 / 1000)).latitude).times100 =
        Math.round
          (toNumber (Coordinates.ofRat (525201 / 10000) (134051 / 10000)).latitude).times100 ∧
      Math.round (toNumber (Coordinates.ofRat (5252 / 100) (13405 / 1000)).longitude).times100 =
        Math.round
          (toNumber (Coordinates.ofRat (525201 / 10000) (134051 / 10000)).longitude).times100) :=
  ⟨by norm_num [Coordinates.Valid, Coordinates.ofRat],
   by norm_num [Coordinates.Valid, Coordinates.ofRat],
   calculateAreaId_eq_iff _ _ (by norm_num [Coordinates.Valid, Coordinates.ofRat])
     (by norm_num [Coordinates.Valid, Coordinates.ofRat])⟩

theorem mem_subscribersOf (s : Hub) (conn : Nat) (room : String) :
    conn ∈ s.subscribersOf room ↔ (conn, room) ∈ s.rooms := by
  unfold Hub.subscribersOf
  simp only [Finset.mem_image, Finset.mem_filter, Prod.exists, exists_and_right, exists_eq_right]

theorem run_joinArea (s : Hub) (conn : Nat) (coordinates : Coordinates)
    (found : Except String (List Vibe)) :
    (s.run (joinArea conn (some coordinates) found)).rooms =
      insert (conn, calculateAreaId coordinates) s.rooms := by
  cases found <;> rfl

/-- Claim C1, counterexample: after `joinArea` at (0, 0) and then at (1, 1),
two different cells, socket 1 is still a member of the room of (0, 0). -/
theorem joinArea_keeps_first_room :
    calculateAreaId (Coordinates.ofRat 0 0) ≠ calculateAreaId (Coordinates.ofRat 1 1) ∧
    1 ∈ ((Hub.init.run (joinArea 1 (some (Coordinates.ofRat 0 0)) (.ok []))).run
      (joinArea 1 (some (Coordinates.ofRat 1 1)) (.ok []))).subscribersOf
        (calculateAreaId (Coordinates.ofRat 0 0)) := by
  have h0 : ⌊(0 : ℚ) * 100 + 1 / 2⌋ = 0 := by norm_num [Int.floor_eq_iff]
  have h1 : ⌊(1 : ℚ) * 100 + 1 / 2⌋ = 100 := by norm_num [Int.floor_eq_iff]
  constructor
  · rw [calculateAreaId_ofRat, calculateAreaId_ofRat, h0, h1]
    decide
  · rw [mem_subscribersOf, run_joinArea, run_joinArea]
    simp

/-- Claim C1, amended: after a socket handles `joinArea(a)` and then
`joinArea(b)` it is a member of the room `calculateAreaId(a)` and of the room
`calculateAreaId(b)`: the handler adds a membership and removes none. -/
theorem joinArea_twice_member_of_both (s : Hub) (conn : Nat) (a b : Coordinates)
    (found₁ found₂ : Except String (List Vibe)) :
    conn ∈ ((s.run (joinArea conn (some a) found₁)).run
      (joinArea conn (some b) found₂)).subscribersOf (calculateAreaId a) ∧
    conn ∈ ((s.run (joinArea conn (some a) found₁)).run
      (joinArea conn (some b) found₂)).subscribersOf (calculateAreaId b) ∧
    s.rooms ⊆ ((s.run (joinArea conn (some a) found₁)).run
      (joinArea conn (some b) found₂)).rooms := by
  simp only [mem_subscribersOf, run_joinArea]
  refine ⟨by simp, by simp, ?_⟩
  intro p hp
  simp [hp]

/-- Claim C9: when `a` and `b` have the same key, the room table after
`joinArea(a)` followed by `joinArea(b)` is the room table after `joinArea(a)`
alone. -/
theorem joinArea_idempotent (s : Hub) (conn : Nat) (a b : Coordinates)
    (found₁ found₂ : Except String (List Vibe))
    (h : calculateAreaId a = calculateAreaId b) :
    (s.run (joinArea conn (some a) found₁)).run (joinArea conn (some b) found₂) =
      s.run (joinArea conn (some a) found₁) := by
  have e : ∀ t u : Hub, t.rooms = u.rooms → t = u := by
    intro t u htu
    cases t; cases u; simp_all
  apply e
  rw [run_joinArea, run_joinArea, ← h]
  simp

/-- Claim C9, witness: socket 1 joins at (52.52, 13.405) and then at
(52.5201, 13.4051), which has the same key; the second call meets a failing
store. -/
theorem joinArea_idempotent_witness :
    calculateAreaId (Coordinates.ofRat (5252 / 100) (13405 / 1000)) =
      calculateAreaId (Coordinates.ofRat (525201 / 10000) (134051 / 10000)) ∧
    (Hub.init.run (joinArea 1 (some (Coordinates.ofRat (5252 / 100) (13405 / 1000)))
        (.ok []))).run
      (joinArea 1 (some (Coordinates.ofRat (525201 / 10000) (134051 / 10000)))
        (.error "down")) =
      Hub.init.run (joinArea 1 (some (Coordinates.ofRat (5252 / 100) (13405 / 1000))) (.ok [])) := by
  have h1 : ⌊(5252 / 100 : ℚ) * 100 + 1 / 2⌋ = 5252 := by norm_num [Int.floor_eq_iff]
  have h2 : ⌊(13405 / 1000 : ℚ) * 100 + 1 / 2⌋ = 1341 := by norm_num [Int.floor_eq_iff]
  have h3 : ⌊(525201 / 10000 : ℚ) * 100 + 1 / 2⌋ = 5252 := by norm_num [Int.floor_eq_iff]
  have h4 : ⌊(134051 / 10000 : ℚ) * 100 + 1 / 2⌋ = 1341 := by norm_num [Int.floor_eq_iff]
  have h : calculateAreaId (Coordinates.ofRat (5252 / 100) (13405 / 1000)) =
      calculateAreaId (Coordinates.ofRat (525201 / 10000) (134051 / 10000)) := by
    rw [calculateAreaId_ofRat, calculateAreaId_ofRat, h1, h2, h3, h4]
  exact ⟨h, joinArea_idempotent _ _ _ _ _ _ h⟩

/-- Claim C6, counterexample: from the empty room table, `joinArea` at (0, 0)
with a failing `Vibe.find` leaves socket 1 in the room `0,0`; the call of
`socket.join` precedes the query. -/
theorem store_failure_changes_rooms :
    (Hub.init.run (joinArea 1 (some (Coordinates.ofRat 0 0)) (.error "down"))).rooms ≠
      Hub.init.rooms ∧
    joinArea 1 (some (Coordinates.ofRat 0 0)) (.error "down") =
      [.areaId (some (Coordinates.ofRat 0 0)), .join 1 "0,0",
        .find (some (.fin 0)) (some (.fin 0)),
        .emitSocket 1 "error" (.error "Error joining area")] := by
  have h0 : ⌊(0 : ℚ) * 100 + 1 / 2⌋ = 0 := by norm_num [Int.floor_eq_iff]
  have hk : calculateAreaId (Coordinates.ofRat 0 0) = "0,0" := by
    rw [calculateAreaId_ofRat, h0]; decide
  constructor
  · rw [run_joinArea, hk]
    simp [Hub.init]
  · simp only [joinArea, hk]
    rfl

/-- Claim C6, amended: when `Vibe.find` fails, the handler has already called
`socket.join`: its effects are, in this order, the evaluation of the key, the
join, the query and one `error` message to the requesting socket; the room
table afterwards is the one before with the socket added to the room of the
key, and no other socket receives a message. -/
theorem joinArea_store_failure (s : Hub) (conn : Nat) (coordinates : Coordinates)
    (message : String) :
    joinArea conn (some coordinates) (.error message) =
      [.areaId (some coordinates), .join conn (calculateAreaId coordinates),
        .find coordinates.longitude coordinates.latitude,
        .emitSocket conn "error" (.error "Error joining area")] ∧
    (s.run (joinArea conn (some coordinates) (.error message))).rooms =
      insert (conn, calculateAreaId coordinates) s.rooms ∧
    (∀ (t : Hub) (a : Action), a ∈ joinArea conn (some coordinates) (.error message) →
      t.recipients a ⊆ {conn}) := by
  refine ⟨rfl, run_joinArea _ _ _ _, ?_⟩
  intro t a ha
  simp only [joinArea, List.cons_append, List.nil_append, List.mem_cons, List.mem_singleton,
    List.not_mem_nil, or_false] at ha
  rcases ha with h | h | h | h <;> subst h <;> simp [Hub.recipients]


/-- Claim C8: on a payload that misses a required path the handler of
`createVibe` performs the save, which fails, and sends one `error` message to
the sender; it does not call `calculateAreaId`, emits to no room and leaves
the room table unchanged. -/
theorem createVibe_malformed (conn : Nat) (vibeData : VibeData) (db : Option String)
    (h : vibeData.MissesRequired) :
    createVibe conn vibeData db =
      [.save vibeData, .emitSocket conn "error" (.error "Vibe validation failed")] ∧
    (∀ a ∈ createVibe conn vibeData db,
      (∀ c, a ≠ .areaId c) ∧ (∀ room event payload, a ≠ .emitRoom room event payload)) ∧
    (∀ s : Hub, s.run (createVibe conn vibeData db) = s) := by
  have hv : vibeSchema.validate vibeData = none := by
    obtain ⟨t, loc, u⟩ := vibeData
    unfold VibeData.MissesRequired at h
    unfold vibeSchema.validate
    rcases t with _ | t <;> rcases loc with _ | loc <;> rcases u with _ | u <;> simp at h ⊢
    obtain ⟨lt, cs, la, lo⟩ := loc
    rcases lt with _ | lt <;> rcases cs with _ | cs <;> simp at h ⊢
  have hc : createVibe conn vibeData db =
      [.save vibeData, .emitSocket conn "error" (.error "Vibe validation failed")] := by
    simp only [createVibe, save, hv]
  refine ⟨hc, ?_, ?_⟩
  · intro a ha
    rw [hc] at ha
    simp only [List.mem_cons, List.mem_singleton, List.not_mem_nil, or_false] at ha
    rcases ha with h | h <;> subst h <;> simp
  · intro s
    rw [hc]
    rfl

/-- Claim C8, witness: a payload without `location.coordinates`. -/
theorem createVibe_malformed_witness :
    createVibe 1
      { type := some "text",
        location := some { type := some "Point", coordinates := none,
                           latitude := none, longitude := none },
        createdBy := some "507f1f77bcf86cd799439011" } none =
      [.save
        { type := some "text",
          location := some { type := some "Point", coordinates := none,
                             latitude := none, longitude := none },
          createdBy := some "507f1f77bcf86cd799439011" },
        .emitSocket 1 "error" (.error "Vibe validation failed")] :=
  (createVibe_malformed 1 _ none (by simp [VibeData.MissesRequired])).1

/-- Claim C2, the failing input: a payload with the GeoJSON location
`coordinates = [13.405, 52.52]` is saved, the stored coordinate is
(52.52, 13.405) with cell key `52.52,13.41`, and the handler reads the absent
properties `latitude` and `longitude` of `vibeData.location`, so that it emits
`newVibe` to the room `NaN,NaN`: socket 1, which joined at (52.52, 13.405),
is a member of the room `52.52,13.41` and is not among the recipients. -/
theorem createVibe_geojson_room :
    createVibe 2
      { type := some "text",
        location := some { type := some "Point",
                           coordinates := some [.fin (13405 / 1000), .fin (5252 / 100)],
                           latitude := none, longitude := none },
        createdBy := some "507f1f77bcf86cd799439011" } none =
      [.save
        { type := some "text",
          location := some { type := some "Point",
                             coordinates := some [.fin (13405 / 1000), .fin (5252 / 100)],
                             latitude := none, longitude := none },
          createdBy := some "507f1f77bcf86cd799439011" },
        .areaId (some { latitude := none, longitude := none }),
        .emitRoom "NaN,NaN" "newVibe"
          (.vibe { type := "text",
                   location := { type := "Point",
                                 coordinates := [.fin (13405 / 1000), .fin (5252 / 100)] },
                   createdBy := "507f1f77bcf86cd799439011" })] ∧
    Point.coordinate { type := "Point", coordinates := [.fin (13405 / 1000), .fin (5252 / 100)] } =
      some (Coordinates.ofRat (5252 / 100) (13405 / 1000)) ∧
    calculateAreaId (Coordinates.ofRat (5252 / 100) (13405 / 1000)) = "52.52,13.41" ∧
    (Hub.init.run (joinArea 1 (some (Coordinates.ofRat (5252 / 100) (13405 / 1000)))
      (.ok []))).subscribersOf "52.52,13.41" = {1} ∧
    (Hub.init.run (joinArea 1 (some (Coordinates.ofRat (5252 / 100) (13405 / 1000)))
      (.ok []))).subscribersOf "NaN,NaN" = ∅ := by
  have h1 : ⌊(5252 / 100 : ℚ) * 100 + 1 / 2⌋ = 5252 := by norm_num [Int.floor_eq_iff]
  have h2 : ⌊(13405 / 1000 : ℚ) * 100 + 1 / 2⌋ = 1341 := by norm_num [Int.floor_eq_iff]
  have hk : calculateAreaId (Coordinates.ofRat (5252 / 100) (13405 / 1000)) = "52.52,13.41" := by
    rw [calculateAreaId_ofRat, h1, h2]; decide
  have hr : (Hub.init.run (joinArea 1 (some (Coordinates.ofRat (5252 / 100) (13405 / 1000)))
      (.ok []))).rooms = {(1, "52.52,13.41")} := by
    rw [run_joinArea, hk]; rfl
  refine ⟨?_, rfl, hk, ?_, ?_⟩
  · have hn : calculateAreaId { latitude := none, longitude := none } = "NaN,NaN" := by decide
    simp [createVibe, save, vibeSchema.validate, Location.asCoordinates, hn]
  · ext c
    rw [mem_subscribersOf, hr]
    simp
  · ext c
    rw [mem_subscribersOf, hr]
    simp

end VipeMap
